import Mathlib

/-!
Verification development for the jarvis task-capture assistant.

The definitions below are a shallow embedding of the Asana integration layer
(src/asana_client.py), the classification sanitization step
(src/classifier.py) and the fixed tables of src/config.py. Python strings
become Lean strings (sequences of code points), Python dicts with insertion
order become association lists, Python datetime.date values become proleptic
Gregorian ordinals, backend requests become calls to an explicit Backend
record returning Except values (an error models a raised exception), and the
persisted processed-messages file becomes an explicit list of keys threaded
through the operations.
-/

set_option maxRecDepth 4000

namespace Jarvis

/-! Basic Python string helpers. -/

/-- Python truthiness of an optional string: None and the empty string are
falsy, every other string is truthy. -/
def truthy : Option String → Bool
  | none => false
  | some s => !(s == "")

/-- Python slicing s[:n] on a string, by code points. -/
def tomar (s : String) (n : Nat) : String := ⟨s.data.take n⟩

/-- Python s.endswith(sufijo). -/
def terminaCon (s sufijo : String) : Bool := sufijo.data.isSuffixOf s.data

/-- Python s.startswith(prefijo). -/
def empiezaCon (s prefijo : String) : Bool := prefijo.data.isPrefixOf s.data

/-- Python s.split(prefijo, 1)[1] in the guarded case where s starts with the
given text: everything after that leading text. -/
def quitarPrefijo (s prefijo : String) : String := ⟨s.data.drop prefijo.data.length⟩

/-- Characters of s after the first occurrence of sep, as in s.split(sep, 1)[1]. -/
def quitarHastaPrimero (sep : Char) : List Char → List Char
  | [] => []
  | c :: cs => if c == sep then cs else quitarHastaPrimero sep cs

/-- Python s.strip(): drop whitespace from both ends. -/
def recortar (s : String) : String :=
  ⟨((s.data.dropWhile Char.isWhitespace).reverse.dropWhile Char.isWhitespace).reverse⟩

/-- Split a character list at every occurrence of sep. -/
def partirLista (sep : Char) : List Char → List (List Char)
  | [] => [[]]
  | c :: cs =>
    let resto := partirLista sep cs
    if c == sep then [] :: resto
    else
      match resto with
      | [] => [[c]]
      | h :: t => (c :: h) :: t

/-- Python s.splitlines() for newline-separated text, as used to scan the
notes template line by line. -/
def lineas (s : String) : List String := (partirLista '\n' s.data).map (fun l => ⟨l⟩)

/-- Lookup in an insertion-ordered string dictionary, as Python dict.get(k). -/
def lookupDict (d : List (String × String)) (k : String) : Option String :=
  (d.find? (fun kv => kv.1 == k)).map (fun kv => kv.2)

/-! Calendar dates. Python datetime.date values are modelled by their
proleptic Gregorian ordinal (the value of date.toordinal), so that the
chronological order is the integer order and timedelta(days = k) is addition
of k. -/

/-- A Python datetime.date value, as its proleptic Gregorian ordinal. -/
abbrev Fecha := Int

/-- Gregorian leap year test. -/
def esBisiesto (y : Nat) : Bool := y % 4 == 0 && (y % 100 != 0 || y % 400 == 0)

/-- Cumulative day counts before each month in a non-leap year. -/
def DIAS_ANTES_MES : List Nat := [0, 31, 59, 90, 120, 151, 181, 212, 243, 273, 304, 334]

/-- Number of days of a month in a given year. -/
def diasEnMes (y m : Nat) : Nat :=
  if m == 2 then (if esBisiesto y then 29 else 28)
  else [31, 28, 31, 30, 31, 30, 31, 31, 30, 31, 30, 31].getD (m - 1) 0

/-- Proleptic Gregorian ordinal of a calendar date, as CPython computes
date.toordinal (day 1 is January 1 of year 1). -/
def ymd2ord (y m d : Nat) : Nat :=
  let py := y - 1
  py * 365 + py / 4 - py / 100 + py / 400
    + DIAS_ANTES_MES.getD (m - 1) 0
    + (if 2 < m && esBisiesto y then 1 else 0)
    + d

/-- The date of a given year, month and day. -/
def fecha (y m d : Nat) : Fecha := (ymd2ord y m d : Int)

/-- Numeric value of a list of decimal digit characters. -/
def digitosANat (cs : List Char) : Nat :=
  cs.foldl (fun acc c => acc * 10 + (c.toNat - 48)) 0

/-- Model of Python date.fromisoformat on the YYYY-MM-DD format: the ordinal
of the date when the ten characters spell a valid calendar date of years 1 to
9999, nothing on any malformed input (a raised ValueError). -/
def date_fromisoformat (s : String) : Option Fecha :=
  match s.data with
  | [y1, y2, y3, y4, g1, m1, m2, g2, d1, d2] =>
    if g1 == '-' && g2 == '-' && [y1, y2, y3, y4, m1, m2, d1, d2].all Char.isDigit then
      let y := digitosANat [y1, y2, y3, y4]
      let m := digitosANat [m1, m2]
      let d := digitosANat [d1, d2]
      if 1 ≤ y && 1 ≤ m && m ≤ 12 && 1 ≤ d && d ≤ diasEnMes y m then
        some (fecha y m d)
      else none
    else none
  | _ => none

/-- A numeric UTC offset of the shape +HH:MM or -HH:MM. -/
def offsetValido : List Char → Bool
  | [s, h1, h2, c, m1, m2] =>
    (s == '+' || s == '-') && c == ':' && [h1, h2, m1, m2].all Char.isDigit
      && digitosANat [h1, h2] < 24 && digitosANat [m1, m2] < 60
  | _ => false

/-- What may follow the seconds of a time component: nothing, a fractional
part of one to six digits, an offset, or both. -/
def colaSegundosValida (cs : List Char) : Bool :=
  match cs with
  | [] => true
  | '.' :: resto =>
    let frac := resto.takeWhile Char.isDigit
    let resto2 := resto.dropWhile Char.isDigit
    1 ≤ frac.length && frac.length ≤ 6 && (resto2.isEmpty || offsetValido resto2)
  | _ => offsetValido cs

/-- Model of the time component accepted by Python datetime.fromisoformat, in
the extended format used by the Asana timestamps: HH, HH:MM, or HH:MM:SS with
an optional fractional part and an optional offset after full seconds. -/
def horaValida : List Char → Bool
  | [h1, h2] => [h1, h2].all Char.isDigit && digitosANat [h1, h2] < 24
  | [h1, h2, c, m1, m2] =>
    [h1, h2, m1, m2].all Char.isDigit && c == ':'
      && digitosANat [h1, h2] < 24 && digitosANat [m1, m2] < 60
  | h1 :: h2 :: c1 :: m1 :: m2 :: c2 :: s1 :: s2 :: resto =>
    [h1, h2, m1, m2, s1, s2].all Char.isDigit && c1 == ':' && c2 == ':'
      && digitosANat [h1, h2] < 24 && digitosANat [m1, m2] < 60
      && digitosANat [s1, s2] < 60
      && colaSegundosValida resto
  | _ => false

/-- Model of datetime.fromisoformat(s).date(): the leading ten characters
must spell a valid calendar date; anything further must be a single separator
character followed by a valid time component; the date part is returned and
the time of day is dropped, with no time-zone conversion. -/
def datetime_fromisoformat_fecha (s : String) : Option Fecha :=
  match date_fromisoformat ⟨s.data.take 10⟩ with
  | none => none
  | some f =>
    match s.data.drop 10 with
    | [] => some f
    | _ :: resto => if horaValida resto then some f else none

/-- Python raw.replace(Z, +00:00) for the single-character pattern Z. -/
def reemplazarZ (s : String) : String :=
  ⟨s.data.flatMap (fun c => if c == 'Z' then "+00:00".data else [c])⟩

/-- The completed_at parsing of obtener_resumen_semanal:
datetime.fromisoformat(raw.replace(Z, +00:00)).date(), with a parse failure
(the logged warning branch) modelled as none. -/
def parsearCompletedAt (raw : String) : Option Fecha :=
  datetime_fromisoformat_fecha (reemplazarZ raw)

/-! Fixed tables from src/config.py. -/

/-- Priority-to-section table PRIORIDAD_SECCION_MAP of config.py. -/
def PRIORIDAD_SECCION_MAP : List (String × String) :=
  [("alta", "Hoy"), ("media", "Semana"), ("baja", "Backlog")]

/-- Valid values of the Proyecto field, PROYECTOS_VALIDOS of config.py. -/
def PROYECTOS_VALIDOS : List String :=
  ["Speaker", "Automatización", "Marca personal", "Nomadic",
   "Adquisición", "Docencia", "Personal"]

/-- The configured Asana project gid (the config.py default). -/
def ASANA_PROJECT_GID : String := "1213411524368931"

/-! Data model. -/

/-- A classification dict as consumed by the Asana client. Each field holds
the value of clasificacion.get(campo); a missing key and a null value are
both modelled as none, which the consuming code treats the same way through
its defaults and truthiness tests. -/
structure Clasificacion where
  proyecto : Option String := none
  prioridad : Option String := none
  resumen : Option String := none
  tipo : Option String := none
  due_date : Option String := none
deriving DecidableEq, Repr

/-- The cached identifier table persisted in data/asana_ids.json. -/
structure AsanaIds where
  secciones : List (String × String) := []
  campo_proyecto_gid : Option String := none
  opciones_proyecto : List (String × String) := []
  owner_user_gid : Option String := none
deriving DecidableEq, Repr

/-- The payload of a task creation request, as assembled by crear_tarea. A
field left out of the Python dict is none here. -/
structure TaskData where
  name : String
  notes : String
  projects : List String
  custom_fields : List (String × String)
  assignee : Option String := none
  due_on : Option String := none
deriving DecidableEq, Repr

/-- The task object returned by the backend on a successful creation. -/
structure Task where
  gid : String
  name : String
deriving DecidableEq, Repr

/-- One backend request issued by the client; traces of these model which
Asana API writes and reads an operation performs. -/
inductive Llamada where
  | createTask (datos : TaskData)
  | addTaskForSection (seccion_gid task_gid : String)
  | updateTaskCompleted (task_gid : String)
  | getTasksForSection (seccion_gid : String)
deriving DecidableEq, Repr

/-- The backend task tracker as seen by the client: each request either
returns a value or raises, modelled by Except with an error meaning a raised
exception. -/
structure Backend where
  createTask : TaskData → Except Unit Task
  addTaskForSection : String → String → Except Unit Unit
  updateTaskCompleted : String → Except Unit Unit

/-! Name resolution (AsanaClient section and option lookup). -/

/-- First entry of the table whose name ends in a space plus the given short
name, as the suffix loops of the client. -/
def buscarPorSufijo (tabla : List (String × String)) (nombre : String) : Option String :=
  (tabla.find? (fun kv => terminaCon kv.1 (" " ++ nombre))).map (fun kv => kv.2)

/-- AsanaClient resolver of a section gid from a short name: return a truthy
exact dict hit, else the first section whose name ends in a space plus the
short name, else nothing (the logged not-found branch). -/
def resolver_seccion_gid_por_nombre_corto
    (secciones : List (String × String)) (nombre_corto : String) : Option String :=
  match lookupDict secciones nombre_corto with
  | some gid =>
    if gid == "" then buscarPorSufijo secciones nombre_corto
    else some gid
  | none => buscarPorSufijo secciones nombre_corto

/-- The inline enum-option lookup of crear_tarea for the Proyecto custom
field: an exact dict hit kept when truthy, else overwritten by the first
option whose name ends in a space plus the project name. -/
def resolver_opcion_proyecto
    (opciones : List (String × String)) (proyecto : String) : Option String :=
  let opcion_gid := lookupDict opciones proyecto
  if truthy opcion_gid then opcion_gid
  else
    match buscarPorSufijo opciones proyecto with
    | some gid => some gid
    | none => opcion_gid

/-- Modelled from the spec wording of the matching policy, for comparison
with the code: exact key match first, else the first entry whose name ends
with a space plus the short name, else not found. -/
def resolverSegunSpec (tabla : List (String × String)) (nombre : String) : Option String :=
  match lookupDict tabla nombre with
  | some gid => some gid
  | none => buscarPorSufijo tabla nombre

/-! The dedup ledger (data/procesados.json). -/

/-- Membership test of the processed-messages ledger. -/
def ya_procesado (procesados : List String) (message_id : String) : Bool :=
  decide (message_id ∈ procesados)

/-- Append a key to the processed-messages ledger. -/
def marcar_procesado (procesados : List String) (message_id : String) : List String :=
  procesados ++ [message_id]

/-! Task creation (AsanaClient.crear_tarea). -/

/-- Target section short name for a classification priority, as computed in
crear_tarea: PRIORIDAD_SECCION_MAP.get(clasificacion.get(prioridad, media),
Semana). -/
def seccionParaPrioridad (prioridad : Option String) : String :=
  (lookupDict PRIORIDAD_SECCION_MAP (prioridad.getD "media")).getD "Semana"

/-- Priority glyph for the notes template. -/
def emojiPrioridad (prioridad : Option String) : String :=
  match prioridad with
  | some p => (lookupDict [("alta", "🔴"), ("media", "🟡"), ("baja", "🟢")] p).getD "⚪"
  | none => "⚪"

/-- The literal notes template of crear_tarea. -/
def construir_notas (texto : String) (clasificacion : Clasificacion) (fuente : String) : String :=
  "Fuente: " ++ fuente ++ "\n"
    ++ "Tipo: " ++ clasificacion.tipo.getD "nota" ++ "\n"
    ++ "Prioridad: " ++ emojiPrioridad clasificacion.prioridad ++ " "
    ++ clasificacion.prioridad.getD "media" ++ "\n"
    ++ "Proyecto: " ++ clasificacion.proyecto.getD "Personal" ++ "\n"
    ++ "\n---\n\n"
    ++ "Texto original:\n" ++ texto

/-- The custom_fields dict of the creation payload: when the Proyecto field
gid is cached and truthy, map it to the resolved enum option when that is
truthy, else leave the dict empty (the logged warning branch). -/
def construir_custom_fields (ids : AsanaIds) (clasificacion : Clasificacion) :
    List (String × String) :=
  if truthy ids.campo_proyecto_gid then
    let proyecto := clasificacion.proyecto.getD "Personal"
    let opcion_gid := resolver_opcion_proyecto ids.opciones_proyecto proyecto
    if truthy opcion_gid then [(ids.campo_proyecto_gid.getD "", opcion_gid.getD "")]
    else []
  else []

/-- The task_data payload assembled by crear_tarea: name from the summary or
the first 80 characters of the text, the notes template, the fixed project,
the custom field, the cached owner as assignee when truthy, and the due date
passed through whenever truthy. -/
def construir_task_data (ids : AsanaIds) (texto : String)
    (clasificacion : Clasificacion) (fuente : String) : TaskData :=
  { name := clasificacion.resumen.getD (tomar texto 80)
    notes := construir_notas texto clasificacion fuente
    projects := [ASANA_PROJECT_GID]
    custom_fields := construir_custom_fields ids clasificacion
    assignee := if truthy ids.owner_user_gid then ids.owner_user_gid else none
    due_on := if truthy clasificacion.due_date then clasificacion.due_date else none }

/-- AsanaClient.crear_tarea. Returns the outcome (ok none for a dedup skip,
ok some task for a created task, error for a raised exception), the new
processed-messages ledger, and the trace of backend requests. The try block
of the source wraps both the creation and the section move, and its handler
re-raises, so a failure of either request propagates and the dedup key is
recorded only after both the creation and any attempted move succeeded. -/
def crear_tarea (b : Backend) (ids : AsanaIds) (procesados : List String)
    (texto : String) (clasificacion : Clasificacion) (message_id fuente : String) :
    Except Unit (Option Task) × List String × List Llamada :=
  let dedup_id := fuente ++ "_" ++ message_id
  if ya_procesado procesados dedup_id then
    (Except.ok none, procesados, [])
  else
    let nombre_seccion := seccionParaPrioridad clasificacion.prioridad
    let seccion_gid := resolver_seccion_gid_por_nombre_corto ids.secciones nombre_seccion
    let task_data := construir_task_data ids texto clasificacion fuente
    match b.createTask task_data with
    | Except.error e => (Except.error e, procesados, [Llamada.createTask task_data])
    | Except.ok task =>
      if truthy seccion_gid then
        let sg := seccion_gid.getD ""
        match b.addTaskForSection sg task.gid with
        | Except.error e =>
          (Except.error e, procesados,
            [Llamada.createTask task_data, Llamada.addTaskForSection sg task.gid])
        | Except.ok _ =>
          (Except.ok (some task), marcar_procesado procesados dedup_id,
            [Llamada.createTask task_data, Llamada.addTaskForSection sg task.gid])
      else
        (Except.ok (some task), marcar_procesado procesados dedup_id,
          [Llamada.createTask task_data])

/-- AsanaClient.completar_tarea: mark the task completed, then move it to the
Hecho section when that resolves truthy. The function has no handler, so a
failure of either request propagates to the caller. -/
def completar_tarea (b : Backend) (ids : AsanaIds) (task_gid : String) :
    Except Unit Unit × List Llamada :=
  match b.updateTaskCompleted task_gid with
  | Except.error e => (Except.error e, [Llamada.updateTaskCompleted task_gid])
  | Except.ok _ =>
    let seccion_hecho_gid := resolver_seccion_gid_por_nombre_corto ids.secciones "Hecho"
    if truthy seccion_hecho_gid then
      let sg := seccion_hecho_gid.getD ""
      match b.addTaskForSection sg task_gid with
      | Except.error e =>
        (Except.error e,
          [Llamada.updateTaskCompleted task_gid, Llamada.addTaskForSection sg task_gid])
      | Except.ok _ =>
        (Except.ok (),
          [Llamada.updateTaskCompleted task_gid, Llamada.addTaskForSection sg task_gid])
    else (Except.ok (), [Llamada.updateTaskCompleted task_gid])

/-! Task listing and the weekly digest. -/

/-- One custom field value of a fetched task: the field name and the name of
its enum value, each mapped through the optional-dict accesses of the source. -/
structure CustomFieldValue where
  name : Option String := none
  enum_value_name : Option String := none
deriving DecidableEq, Repr

/-- A task dict as fetched from the backend with the requested field
projections. -/
structure TaskRecord where
  gid : Option String := none
  name : Option String := none
  completed : Bool := false
  completed_at : Option String := none
  due_on : Option String := none
  notes : Option String := none
  custom_fields : List CustomFieldValue := []
deriving DecidableEq, Repr

/-- Python task.get(name) or the placeholder title. -/
def nombreDe (t : TaskRecord) : String :=
  match t.name with
  | some n => if n == "" then "(sin título)" else n
  | none => "(sin título)"

/-- AsanaClient project extraction from a task: take the enum value of the
first custom field named Proyecto, strip a leading decorated word when the
name contains a space and starts with a non-alphanumeric character, and fall
back to the Proyecto line of the notes template. Char.isAlphanum models the
Python isalnum test on the ASCII range. -/
def extraer_proyecto_desde_task (t : TaskRecord) : String :=
  let notas := t.notes.getD ""
  let desdeCampo :=
    match t.custom_fields.find? (fun cf => cf.name == some "Proyecto") with
    | none => "Sin proyecto"
    | some cf =>
      match cf.enum_value_name with
      | some raw =>
        if raw == "" then "Sin proyecto"
        else if raw.data.contains ' ' && !(Char.isAlphanum (raw.data.headD ' ')) then
          ⟨quitarHastaPrimero ' ' raw.data⟩
        else raw
      | none => "Sin proyecto"
  if desdeCampo == "Sin proyecto" then
    match (lineas notas).find? (fun l => empiezaCon l "Proyecto:") with
    | some l => recortar (quitarPrefijo l "Proyecto:")
    | none => "Sin proyecto"
  else desdeCampo

/-- Priority glyph extraction of listar_tareas_seccion: the first whitespace
token after the Prioridad prefix of the notes, defaulting to a neutral dot. -/
def extraerEmojiPrioridad (notas : String) : String :=
  match (lineas notas).find? (fun l => empiezaCon l "Prioridad:") with
  | none => "•"
  | some l =>
    let rest := recortar (quitarPrefijo l "Prioridad:")
    if rest == "" then "•"
    else ⟨rest.data.takeWhile (fun c => !c.isWhitespace)⟩

/-- One row of the listar_tareas_seccion result. -/
structure EntradaSeccion where
  gid : Option String
  emoji_prioridad : String
  proyecto : String
  name : String
  seccion : String
deriving DecidableEq, Repr

/-- The per-task step of listar_tareas_seccion: completed tasks are skipped,
open tasks become a result row. -/
def entradaDeTarea (nombre_seccion_corto : String) (t : TaskRecord) : Option EntradaSeccion :=
  if t.completed then none
  else some
    { gid := t.gid
      emoji_prioridad := extraerEmojiPrioridad (t.notes.getD "")
      proyecto := extraer_proyecto_desde_task t
      name := nombreDe t
      seccion := nombre_seccion_corto }

/-- AsanaClient.listar_tareas_seccion. The consultar argument models the
get_tasks_for_section request of the backend, raising on error. When the
section short name does not resolve truthy, the function returns the empty
list at once, with no backend request made. -/
def listar_tareas_seccion (consultar : String → Except Unit (List TaskRecord))
    (ids : AsanaIds) (nombre_seccion_corto : String) :
    Except Unit (List EntradaSeccion) × List Llamada :=
  let seccion_gid := resolver_seccion_gid_por_nombre_corto ids.secciones nombre_seccion_corto
  if truthy seccion_gid then
    let sg := seccion_gid.getD ""
    match consultar sg with
    | Except.error e => (Except.error e, [Llamada.getTasksForSection sg])
    | Except.ok ts =>
      (Except.ok (ts.filterMap (entradaDeTarea nombre_seccion_corto)),
        [Llamada.getTasksForSection sg])
  else (Except.ok [], [])

/-- One row of the completed list of the weekly digest. -/
structure EntradaCompletada where
  name : String
  proyecto : String
deriving DecidableEq, Repr

/-- One row of the overdue list of the weekly digest. -/
structure EntradaVencida where
  name : String
  proyecto : String
  due_on : Fecha
deriving DecidableEq, Repr

/-- The weekly digest returned by obtener_resumen_semanal. -/
structure Resumen where
  desde : Fecha
  hasta : Fecha
  completadas : List EntradaCompletada
  vencidas : List EntradaVencida
  por_proyecto : List (String × Nat)
deriving DecidableEq, Repr

/-- The filter of the completed loop of obtener_resumen_semanal: the task is
completed, has a truthy completion timestamp, and that timestamp parses to a
date inside the inclusive window. -/
def completadaEnVentana (desde hoy : Fecha) (t : TaskRecord) : Bool :=
  t.completed && truthy t.completed_at &&
    (match parsearCompletedAt (t.completed_at.getD "") with
     | none => false
     | some d => decide (desde ≤ d) && decide (d ≤ hoy))

/-- The digest row built for a completed task. -/
def entradaCompletada (t : TaskRecord) : EntradaCompletada :=
  { name := nombreDe t, proyecto := extraer_proyecto_desde_task t }

/-- The per-task step of the overdue loop of obtener_resumen_semanal: skip
completed tasks, tasks without a truthy due date, tasks whose due date does
not parse (the logged warning branch), and tasks due today or later; the rest
become overdue rows. -/
def entradaVencida (hoy : Fecha) (t : TaskRecord) : Option EntradaVencida :=
  if t.completed then none
  else if !truthy t.due_on then none
  else
    match date_fromisoformat (t.due_on.getD "") with
    | none => none
    | some d =>
      if hoy ≤ d then none
      else some { name := nombreDe t, proyecto := extraer_proyecto_desde_task t, due_on := d }

/-- Python counting dict update por_proyecto.get(k, 0) + 1, preserving
insertion order. -/
def incrementarCuenta (m : List (String × Nat)) (k : String) : List (String × Nat) :=
  if m.any (fun kv => kv.1 == k) then
    m.map (fun kv => if kv.1 == k then (kv.1, kv.2 + 1) else kv)
  else m ++ [(k, 1)]

/-- Code point order on strings, the order Python uses to compare them. -/
def leCadena : List Char → List Char → Bool
  | [], _ => true
  | _ :: _, [] => false
  | a :: as, b :: bs => if a == b then leCadena as bs else decide (a < b)

/-- Insert an element into a list already ordered by le, before the first
element that is not strictly smaller. -/
def insertarOrdenado (le : α → α → Bool) (x : α) : List α → List α
  | [] => [x]
  | y :: ys => if le x y then x :: y :: ys else y :: insertarOrdenado le x ys

/-- Stable sort by a boolean total preorder, modelling the stable Python
list.sort with a key. -/
def ordenarPor (le : α → α → Bool) : List α → List α
  | [] => []
  | x :: xs => insertarOrdenado le x (ordenarPor le xs)

/-- Sort key order of the completed list: the pair of project and name. -/
def claveCompletadaLe (a b : EntradaCompletada) : Bool :=
  if a.proyecto == b.proyecto then leCadena a.name.data b.name.data
  else leCadena a.proyecto.data b.proyecto.data

/-- Sort key order of the overdue list: project, due date, then name. -/
def claveVencidaLe (a b : EntradaVencida) : Bool :=
  if a.proyecto == b.proyecto then
    if a.due_on == b.due_on then leCadena a.name.data b.name.data
    else decide (a.due_on ≤ b.due_on)
  else leCadena a.proyecto.data b.proyecto.data

/-- AsanaClient.obtener_resumen_semanal. The consultar argument models the
get_tasks_for_section listing of the backend; the digest reads the Hecho
section for the completed window and the Hoy, Semana and Backlog sections for
the overdue rows, then sorts both lists by their Python sort keys. -/
def obtener_resumen_semanal (consultar : String → List TaskRecord)
    (ids : AsanaIds) (hoy : Fecha) : Resumen :=
  let desde := hoy - 6
  let seccion_hecho_gid := resolver_seccion_gid_por_nombre_corto ids.secciones "Hecho"
  let completadas0 :=
    if truthy seccion_hecho_gid then
      ((consultar (seccion_hecho_gid.getD "")).filter
        (completadaEnVentana desde hoy)).map entradaCompletada
    else []
  let por_proyecto := completadas0.foldl (fun m e => incrementarCuenta m e.proyecto) []
  let vencidas0 :=
    (["Hoy", "Semana", "Backlog"] : List String).flatMap (fun nombre =>
      let g := resolver_seccion_gid_por_nombre_corto ids.secciones nombre
      if truthy g then (consultar (g.getD "")).filterMap (entradaVencida hoy) else [])
  { desde := desde
    hasta := hoy
    completadas := ordenarPor claveCompletadaLe completadas0
    vencidas := ordenarPor claveVencidaLe vencidas0
    por_proyecto := por_proyecto }

/-! Classification sanitization (clasificar_mensaje of src/classifier.py). -/

/-- The validation step of clasificar_mensaje on the parsed model output: an
invalid or missing project becomes Personal, an invalid or missing priority
becomes media, and a summary of more than 80 characters is truncated to its
first 77 characters plus a three-dot ellipsis. -/
def sanitizar_clasificacion (resultado : Clasificacion) : Clasificacion :=
  { resultado with
    proyecto :=
      if (match resultado.proyecto with
          | some p => PROYECTOS_VALIDOS.contains p
          | none => false) then resultado.proyecto
      else some "Personal"
    prioridad :=
      if (match resultado.prioridad with
          | some p => (["alta", "media", "baja"] : List String).contains p
          | none => false) then resultado.prioridad
      else some "media"
    resumen :=
      if 80 < (resultado.resumen.getD "").length then
        some (tomar (resultado.resumen.getD "") 77 ++ "...")
      else resultado.resumen }

/-! Sequences of creation requests, for the statement that a processed key
stays processed across any later calls. -/

/-- The arguments of one crear_tarea invocation. -/
structure SolicitudCrear where
  backend : Backend
  ids : AsanaIds
  texto : String
  clasificacion : Clasificacion
  message_id : String
  fuente : String

/-- Run a sequence of crear_tarea invocations, threading the
processed-messages ledger through them. -/
def ejecutarCreaciones (inicial : List String) (solicitudes : List SolicitudCrear) :
    List String :=
  solicitudes.foldl
    (fun s r =>
      (crear_tarea r.backend r.ids s r.texto r.clasificacion r.message_id r.fuente).2.1)
    inicial

/-! Concrete backends, identifier caches and records used to instantiate the
theorems below. -/

/-- A backend on which every request succeeds; a created task gets gid T1 and
echoes the payload name. -/
def backendCreaOk : Backend :=
  { createTask := fun d => Except.ok { gid := "T1", name := d.name }
    addTaskForSection := fun _ _ => Except.ok ()
    updateTaskCompleted := fun _ => Except.ok () }

/-- A backend on which task creation and completion succeed but every section
move raises. -/
def backendFallaMovimiento : Backend :=
  { createTask := fun d => Except.ok { gid := "T1", name := d.name }
    addTaskForSection := fun _ _ => Except.error ()
    updateTaskCompleted := fun _ => Except.ok () }

/-- A cache with the four sections, the first one carrying a decorated name. -/
def idsDemo : AsanaIds :=
  { secciones := [("🔥 Hoy", "S1"), ("Semana", "S2"), ("Backlog", "S3"), ("Hecho", "S4")] }

/-- A classification of high priority and no further fields. -/
def clasificacionAlta : Clasificacion := { prioridad := some "alta" }

/-- A classification whose due date is present but not a calendar date. -/
def clasificacionFechaInvalida : Clasificacion := { due_date := some "not-a-date" }

/-- A summary of 85 characters. -/
def resumenLargo : String := String.mk (List.replicate 85 'a')

/-- A classification carrying the 85-character summary. -/
def clasificacionResumenLargo : Clasificacion := { resumen := some resumenLargo }

/-- A completed task whose timestamp falls on the first day of the window of
2024-03-15. -/
def tareaHecha1 : TaskRecord := { completed := true, completed_at := some "2024-03-09T00:00:01Z" }

/-- A completed task whose timestamp falls one second before that window. -/
def tareaHecha2 : TaskRecord := { completed := true, completed_at := some "2024-03-08T23:59:59Z" }

/-- A backend listing that always returns the empty section. -/
def consultarNulo : String → Except Unit (List TaskRecord) := fun _ => Except.ok []

/-- An open task whose due date is the digest day itself. -/
def tareaDueHoy : TaskRecord := { due_on := some "2024-03-15" }

/-! Shared lemmas. -/

theorem mem_insertarOrdenado {α : Type} (le : α → α → Bool) (x a : α) (l : List α) :
    a ∈ insertarOrdenado le x l ↔ a = x ∨ a ∈ l := by
  induction l with
  | nil => simp [insertarOrdenado]
  | cons y ys ih =>
    simp only [insertarOrdenado]
    split
    · simp
    · simp [List.mem_cons, ih]
      tauto

theorem mem_ordenarPor {α : Type} (le : α → α → Bool) (a : α) (l : List α) :
    a ∈ ordenarPor le l ↔ a ∈ l := by
  induction l with
  | nil => simp [ordenarPor]
  | cons x xs ih => simp [ordenarPor, mem_insertarOrdenado, ih]

theorem crear_tarea_duplicado (b : Backend) (ids : AsanaIds) (s : List String)
    (texto : String) (c : Clasificacion) (mid fuente : String)
    (h : ya_procesado s (fuente ++ "_" ++ mid) = true) :
    crear_tarea b ids s texto c mid fuente = (Except.ok none, s, []) := by
  simp [crear_tarea, h]

theorem crear_tarea_ledger (b : Backend) (ids : AsanaIds) (s : List String)
    (texto : String) (c : Clasificacion) (mid fuente : String) :
    (crear_tarea b ids s texto c mid fuente).2.1 = s ∨
      (crear_tarea b ids s texto c mid fuente).2.1 = s ++ [fuente ++ "_" ++ mid] := by
  simp only [crear_tarea, marcar_procesado]
  split
  · exact Or.inl rfl
  · split
    · exact Or.inl rfl
    · split
      · split
        · exact Or.inl rfl
        · exact Or.inr rfl
      · exact Or.inr rfl

theorem crear_tarea_exito_ledger (b : Backend) (ids : AsanaIds) (s : List String)
    (texto : String) (c : Clasificacion) (mid fuente : String) (task : Task)
    (h : (crear_tarea b ids s texto c mid fuente).1 = Except.ok (some task)) :
    (crear_tarea b ids s texto c mid fuente).2.1 = s ++ [fuente ++ "_" ++ mid] := by
  revert h
  simp only [crear_tarea, marcar_procesado]
  split
  · intro h; simp at h
  · split
    · intro h; simp at h
    · split
      · split
        · intro h; simp at h
        · intro _; rfl
      · intro _; rfl

theorem crear_tarea_conserva (b : Backend) (ids : AsanaIds) (s : List String)
    (texto : String) (c : Clasificacion) (mid fuente k : String)
    (h : k ∈ s) : k ∈ (crear_tarea b ids s texto c mid fuente).2.1 := by
  rcases crear_tarea_ledger b ids s texto c mid fuente with h2 | h2
  · rw [h2]; exact h
  · rw [h2]; exact List.mem_append_left _ h

theorem mem_ejecutarCreaciones (solicitudes : List SolicitudCrear) (s : List String)
    (k : String) (h : k ∈ s) : k ∈ ejecutarCreaciones s solicitudes := by
  induction solicitudes generalizing s with
  | nil => exact h
  | cons r rs ih =>
    exact ih _ (crear_tarea_conserva r.backend r.ids s r.texto r.clasificacion
      r.message_id r.fuente k h)

theorem resolver_ninguno (secciones : List (String × String)) (nombre : String)
    (hexacto : ∀ par ∈ secciones, par.1 ≠ nombre)
    (hsufijo : ∀ par ∈ secciones, terminaCon par.1 (" " ++ nombre) = false) :
    resolver_seccion_gid_por_nombre_corto secciones nombre = none := by
  have h1 : lookupDict secciones nombre = none := by
    unfold lookupDict
    rw [List.find?_eq_none.mpr]
    · rfl
    · intro kv hkv
      simp only [beq_iff_eq]
      exact hexacto kv hkv
  have h2 : buscarPorSufijo secciones nombre = none := by
    unfold buscarPorSufijo
    rw [List.find?_eq_none.mpr]
    · rfl
    · intro kv hkv
      simp [hsufijo kv hkv]
  unfold resolver_seccion_gid_por_nombre_corto
  rw [h1, h2]

/-! Claim theorems. -/

/-- Claim C1: after crear_tarea succeeds once with the dedup key built from a
source and a message id, every later crear_tarea call with the same source
and message id — under any backend, identifier cache, text and
classification, and after any sequence of intervening crear_tarea calls —
returns nothing, issues no backend request of any kind, and leaves the
processed-messages ledger unchanged. -/
theorem crear_tarea_dedup_definitivo
    (b : Backend) (ids : AsanaIds) (s : List String) (texto : String)
    (c : Clasificacion) (message_id fuente : String) (task : Task)
    (hexito : (crear_tarea b ids s texto c message_id fuente).1 = Except.ok (some task))
    (solicitudes : List SolicitudCrear) (b2 : Backend) (ids2 : AsanaIds)
    (texto2 : String) (c2 : Clasificacion) :
    crear_tarea b2 ids2
        (ejecutarCreaciones (crear_tarea b ids s texto c message_id fuente).2.1 solicitudes)
        texto2 c2 message_id fuente
      = (Except.ok none,
         ejecutarCreaciones (crear_tarea b ids s texto c message_id fuente).2.1 solicitudes,
         []) := by
  have h1 : (fuente ++ "_" ++ message_id) ∈ (crear_tarea b ids s texto c message_id fuente).2.1 := by
    rw [crear_tarea_exito_ledger b ids s texto c message_id fuente task hexito]
    exact List.mem_append_right _ (List.mem_singleton.mpr rfl)
  have h2 := mem_ejecutarCreaciones solicitudes _ _ h1
  exact crear_tarea_duplicado _ _ _ _ _ _ _ (by simpa [ya_procesado] using h2)

/-- Claim C1 witness: a concrete successful creation followed by a repeat of
the same message id is skipped with no backend request. -/
theorem crear_tarea_dedup_definitivo_witness :
    crear_tarea backendCreaOk idsDemo
        (ejecutarCreaciones
          (crear_tarea backendCreaOk idsDemo [] "hola" clasificacionAlta "42" "telegram").2.1 [])
        "otro texto" { } "42" "telegram"
      = (Except.ok none,
         ejecutarCreaciones
           (crear_tarea backendCreaOk idsDemo [] "hola" clasificacionAlta "42" "telegram").2.1 [],
         []) :=
  crear_tarea_dedup_definitivo backendCreaOk idsDemo [] "hola" clasificacionAlta "42" "telegram"
    { gid := "T1", name := "hola" } rfl [] backendCreaOk idsDemo "otro texto" { }

/-- Claim C2 counterexample: on a backend whose creation succeeds and whose
section move fails, crear_tarea issues the creation and the move attempt,
yet propagates the failure and leaves the dedup key unrecorded — it neither
marks the key as processed nor returns the created task, as the claim states. -/
theorem crear_tarea_falla_movimiento_contraejemplo :
    (crear_tarea backendFallaMovimiento idsDemo [] "hola" clasificacionAlta "42" "telegram").2.2
        = [Llamada.createTask (construir_task_data idsDemo "hola" clasificacionAlta "telegram"),
           Llamada.addTaskForSection "S1" "T1"]
      ∧ (crear_tarea backendFallaMovimiento idsDemo [] "hola" clasificacionAlta "42" "telegram").1
          = Except.error ()
      ∧ "telegram_42" ∉
          (crear_tarea backendFallaMovimiento idsDemo [] "hola" clasificacionAlta "42" "telegram").2.1 := by
  exact ⟨rfl, rfl, by decide⟩

/-- Claim C2 amended: when the dedup key is new, the backend creation
succeeds and the follow-up section move fails, crear_tarea issues exactly the
creation and the failed move — the created task is not rolled back — but the
handler re-raises, so it leaves the processed-messages ledger unchanged and
propagates the error to the caller instead of returning the created task. -/
theorem crear_tarea_falla_movimiento_propaga
    (b : Backend) (ids : AsanaIds) (s : List String) (texto : String)
    (c : Clasificacion) (mid fuente sg : String) (task : Task) (e : Unit)
    (hnuevo : ya_procesado s (fuente ++ "_" ++ mid) = false)
    (hsec : resolver_seccion_gid_por_nombre_corto ids.secciones
        (seccionParaPrioridad c.prioridad) = some sg)
    (hsg : sg ≠ "")
    (hcrear : b.createTask (construir_task_data ids texto c fuente) = Except.ok task)
    (hmover : b.addTaskForSection sg task.gid = Except.error e) :
    crear_tarea b ids s texto c mid fuente
      = (Except.error e, s,
         [Llamada.createTask (construir_task_data ids texto c fuente),
          Llamada.addTaskForSection sg task.gid]) := by
  simp [crear_tarea, hnuevo, hsec, truthy, hsg, hcrear, hmover]

/-- Claim C2 amended witness at a concrete backend. -/
theorem crear_tarea_falla_movimiento_propaga_witness :
    crear_tarea backendFallaMovimiento idsDemo [] "hola" clasificacionAlta "43" "telegram"
      = (Except.error (), [],
         [Llamada.createTask (construir_task_data idsDemo "hola" clasificacionAlta "telegram"),
          Llamada.addTaskForSection "S1" "T1"]) :=
  crear_tarea_falla_movimiento_propaga backendFallaMovimiento idsDemo [] "hola"
    clasificacionAlta "43" "telegram" "S1" { gid := "T1", name := "hola" } ()
    (by decide) (by decide) (by decide) rfl rfl

/-- Claim C3 counterexample: on a backend whose completion update succeeds
and whose move to the Hecho section fails, completar_tarea returns the error
to its caller — the move failure is fatal, not a logged non-fatal event. -/
theorem completar_tarea_falla_movimiento_contraejemplo :
    completar_tarea backendFallaMovimiento idsDemo "T9"
        = (Except.error (),
           [Llamada.updateTaskCompleted "T9", Llamada.addTaskForSection "S4" "T9"])
      ∧ (completar_tarea backendFallaMovimiento idsDemo "T9").1 ≠ Except.ok () := by
  exact ⟨rfl, fun h => Except.noConfusion h⟩

/-- Claim C3 amended: completar_tarea first sets the completion state and
then attempts the move into the Hecho section whenever it resolves truthy;
the completion update is not undone, but a failure of the move request
propagates to the caller rather than being merely logged. -/
theorem completar_tarea_movimiento_propaga
    (b : Backend) (ids : AsanaIds) (task_gid sg : String) (e : Unit)
    (hupd : b.updateTaskCompleted task_gid = Except.ok ())
    (hsec : resolver_seccion_gid_por_nombre_corto ids.secciones "Hecho" = some sg)
    (hsg : sg ≠ "")
    (hmover : b.addTaskForSection sg task_gid = Except.error e) :
    completar_tarea b ids task_gid
      = (Except.error e,
         [Llamada.updateTaskCompleted task_gid, Llamada.addTaskForSection sg task_gid]) := by
  simp [completar_tarea, hupd, hsec, truthy, hsg, hmover]

/-- Claim C3 amended witness at a concrete backend. -/
theorem completar_tarea_movimiento_propaga_witness :
    completar_tarea backendFallaMovimiento idsDemo "T9"
      = (Except.error (),
         [Llamada.updateTaskCompleted "T9", Llamada.addTaskForSection "S4" "T9"]) :=
  completar_tarea_movimiento_propaga backendFallaMovimiento idsDemo "T9" "S4" ()
    rfl (by decide) (by decide) rfl

/-- Claim C4 counterexample: a present due date that is not a well-formed
calendar date — date_fromisoformat, the parser the repo itself applies to due
dates, rejects it — is still carried verbatim in the creation payload
instead of being omitted. -/
theorem due_date_sin_validacion_contraejemplo :
    date_fromisoformat "not-a-date" = none
      ∧ (construir_task_data idsDemo "x" clasificacionFechaInvalida "telegram").due_on
          = some "not-a-date" := by
  exact ⟨by decide, rfl⟩

/-- Claim C4 amended: the payload built by crear_tarea carries the
classification due date exactly when it is present and non-empty; no
well-formedness check is made, so a malformed value passes through verbatim
and only a missing or empty value is omitted. -/
theorem construir_task_data_due_on
    (ids : AsanaIds) (texto : String) (c : Clasificacion) (fuente : String) :
    (∀ d : String, c.due_date = some d → d ≠ "" →
        (construir_task_data ids texto c fuente).due_on = some d)
      ∧ ((c.due_date = none ∨ c.due_date = some "") →
        (construir_task_data ids texto c fuente).due_on = none) := by
  constructor
  · intro d hd hne
    simp [construir_task_data, truthy, hd, hne]
  · rintro (hd | hd) <;> simp [construir_task_data, truthy, hd]

/-- Claim C4 amended witness: the malformed due date of the counterexample
classification is passed through. -/
theorem construir_task_data_due_on_witness :
    (construir_task_data idsDemo "x" clasificacionFechaInvalida "telegram").due_on
      = some "not-a-date" :=
  (construir_task_data_due_on idsDemo "x" clasificacionFechaInvalida "telegram").1
    "not-a-date" rfl (by decide)

/-- Claim C5: on every cached name table whose identifiers are non-empty,
both the section resolver and the enum option resolver implement the policy
of exact key match first, else first entry whose name ends with a space plus
the short name, else not found; on the two example tables resolving Speaker
yields A and B respectively. -/
theorem resolucion_nombre_corto_politica :
    (∀ (tabla : List (String × String)) (nombre : String),
        (∀ par ∈ tabla, par.2 ≠ "") →
          resolver_seccion_gid_por_nombre_corto tabla nombre = resolverSegunSpec tabla nombre
            ∧ resolver_opcion_proyecto tabla nombre = resolverSegunSpec tabla nombre)
      ∧ resolver_seccion_gid_por_nombre_corto [("Speaker", "A"), ("🎤 Speaker", "B")] "Speaker"
          = some "A"
      ∧ resolver_seccion_gid_por_nombre_corto [("🎤 Speaker", "B")] "Speaker" = some "B"
      ∧ resolver_opcion_proyecto [("Speaker", "A"), ("🎤 Speaker", "B")] "Speaker" = some "A"
      ∧ resolver_opcion_proyecto [("🎤 Speaker", "B")] "Speaker" = some "B" := by
  refine ⟨?_, by decide, by decide, by decide, by decide⟩
  intro tabla nombre h
  have hval : ∀ gid, lookupDict tabla nombre = some gid → gid ≠ "" := by
    intro gid hgid
    unfold lookupDict at hgid
    cases hfind : tabla.find? (fun kv => kv.1 == nombre) with
    | none => rw [hfind] at hgid; simp at hgid
    | some kv =>
      rw [hfind] at hgid
      simp at hgid
      have hmem := List.mem_of_find?_eq_some hfind
      exact hgid ▸ h kv hmem
  constructor
  · unfold resolver_seccion_gid_por_nombre_corto resolverSegunSpec
    cases hl : lookupDict tabla nombre with
    | none => rfl
    | some gid => simp [hval gid hl]
  · unfold resolver_opcion_proyecto resolverSegunSpec
    cases hl : lookupDict tabla nombre with
    | none => cases hb : buscarPorSufijo tabla nombre <;> simp [truthy, hb]
    | some gid => simp [truthy, hval gid hl]

/-- Claim C5 witness: both resolvers agree with the spec policy on a concrete
table with non-empty identifiers. -/
theorem resolucion_nombre_corto_politica_witness :
    resolver_seccion_gid_por_nombre_corto [("Speaker", "A")] "Speaker"
        = resolverSegunSpec [("Speaker", "A")] "Speaker"
      ∧ resolver_opcion_proyecto [("Speaker", "A")] "Speaker"
        = resolverSegunSpec [("Speaker", "A")] "Speaker" :=
  resolucion_nombre_corto_politica.1 [("Speaker", "A")] "Speaker" (by decide)

/-- Claim C6: crear_tarea maps the classification priority to its target
section short name by the fixed table alta to Hoy, media to Semana, baja to
Backlog, with a missing or unrecognized priority mapping to Semana. -/
theorem prioridad_a_seccion :
    seccionParaPrioridad (some "alta") = "Hoy"
      ∧ seccionParaPrioridad (some "media") = "Semana"
      ∧ seccionParaPrioridad (some "baja") = "Backlog"
      ∧ seccionParaPrioridad none = "Semana"
      ∧ ∀ p : String, p ≠ "alta" → p ≠ "media" → p ≠ "baja" →
          seccionParaPrioridad (some p) = "Semana" := by
  refine ⟨by decide, by decide, by decide, by decide, ?_⟩
  intro p h1 h2 h3
  have e1 : (("alta" : String) == p) = false := by simp [Ne.symm h1]
  have e2 : (("media" : String) == p) = false := by simp [Ne.symm h2]
  have e3 : (("baja" : String) == p) = false := by simp [Ne.symm h3]
  simp [seccionParaPrioridad, lookupDict, PRIORIDAD_SECCION_MAP, List.find?, e1, e2, e3]

/-- Claim C6 witness: an unrecognized priority maps to Semana. -/
theorem prioridad_a_seccion_witness :
    seccionParaPrioridad (some "urgente") = "Semana" :=
  prioridad_a_seccion.2.2.2.2 "urgente" (by decide) (by decide) (by decide)

/-- Claim C9: the validation step of the classifier truncates a summary of
more than 80 characters to its first 77 characters plus the three-dot
ellipsis, yielding exactly 80 characters, and leaves a summary of at most 80
characters unchanged. -/
theorem clasificacion_resumen_truncado (r : Clasificacion) (s : String)
    (hr : r.resumen = some s) :
    (80 < s.length →
        (sanitizar_clasificacion r).resumen = some (tomar s 77 ++ "...")
          ∧ (sanitizar_clasificacion r).resumen.map String.length = some 80)
      ∧ (s.length ≤ 80 → (sanitizar_clasificacion r).resumen = some s) := by
  constructor
  · intro h80
    have hres : (sanitizar_clasificacion r).resumen = some (tomar s 77 ++ "...") := by
      simp [sanitizar_clasificacion, hr, h80]
    refine ⟨hres, ?_⟩
    rw [hres]
    have h1 : (tomar s 77).length = 77 := by
      have h2 : s.length = s.data.length := rfl
      simp only [tomar, String.length, List.length_take]
      omega
    have h3 : ("..." : String).length = 3 := by decide
    simp [String.length_append, h1, h3]
  · intro h80
    have hn : ¬ 80 < s.length := Nat.not_lt.mpr h80
    simp [sanitizar_clasificacion, hr, hn]

/-- Claim C9 witness: the 85-character summary is truncated to 77 characters
plus the ellipsis. -/
theorem clasificacion_resumen_truncado_witness :
    (sanitizar_clasificacion clasificacionResumenLargo).resumen
      = some (tomar resumenLargo 77 ++ "...") :=
  ((clasificacion_resumen_truncado clasificacionResumenLargo resumenLargo rfl).1
    (by decide)).1

/-- Claim C10: when neither an exact nor a suffix match resolves the section
short name, listar_tareas_seccion returns the empty list without raising and
without issuing any backend listing request. -/
theorem listar_seccion_no_resuelta
    (consultar : String → Except Unit (List TaskRecord)) (ids : AsanaIds) (nombre : String)
    (hexacto : ∀ par ∈ ids.secciones, par.1 ≠ nombre)
    (hsufijo : ∀ par ∈ ids.secciones, terminaCon par.1 (" " ++ nombre) = false) :
    listar_tareas_seccion consultar ids nombre = (Except.ok [], []) := by
  have h3 := resolver_ninguno ids.secciones nombre hexacto hsufijo
  simp [listar_tareas_seccion, h3, truthy]

/-- Claim C10 witness: a short name matching no cached section yields the
empty listing with no backend request. -/
theorem listar_seccion_no_resuelta_witness :
    listar_tareas_seccion consultarNulo idsDemo "Inexistente" = (Except.ok [], []) :=
  listar_seccion_no_resuelta consultarNulo idsDemo "Inexistente" (by decide) (by decide)

/-- Claim C7: the weekly digest window is the inclusive seven-day span from
six days before today through today; a completed task of the Hecho section
enters the completed list exactly when its completion timestamp parses and
its date falls in that window; at today 2024-03-15 the completion timestamp
2024-03-09T00:00:01Z is inside the window and 2024-03-08T23:59:59Z is not. -/
theorem resumen_ventana_completadas :
    (∀ (consultar : String → List TaskRecord) (ids : AsanaIds) (hoy : Fecha),
        (obtener_resumen_semanal consultar ids hoy).desde = hoy - 6
          ∧ (obtener_resumen_semanal consultar ids hoy).hasta = hoy)
      ∧ (∀ (hoy : Fecha) (t : TaskRecord), t.completed = true →
          (completadaEnVentana (hoy - 6) hoy t = true
            ↔ ∃ raw d, t.completed_at = some raw ∧ parsearCompletedAt raw = some d
                ∧ hoy - 6 ≤ d ∧ d ≤ hoy))
      ∧ (∀ (consultar : String → List TaskRecord) (ids : AsanaIds) (hoy : Fecha)
            (fila : EntradaCompletada),
          fila ∈ (obtener_resumen_semanal consultar ids hoy).completadas
            ↔ ∃ sg, resolver_seccion_gid_por_nombre_corto ids.secciones "Hecho" = some sg
                ∧ sg ≠ ""
                ∧ ∃ t ∈ consultar sg,
                    completadaEnVentana (hoy - 6) hoy t = true ∧ entradaCompletada t = fila)
      ∧ completadaEnVentana (fecha 2024 3 15 - 6) (fecha 2024 3 15) tareaHecha1 = true
      ∧ completadaEnVentana (fecha 2024 3 15 - 6) (fecha 2024 3 15) tareaHecha2 = false := by
  refine ⟨fun consultar ids hoy => ⟨rfl, rfl⟩, ?_, ?_, by decide, by decide⟩
  · intro hoy t hc
    unfold completadaEnVentana
    rw [hc]
    cases hca : t.completed_at with
    | none => simp [truthy]
    | some raw =>
      by_cases hraw : raw = ""
      · subst hraw
        have hp : parsearCompletedAt "" = none := by decide
        simp [truthy, hp]
      · cases hp : parsearCompletedAt raw with
        | none => simp [truthy, hraw, hp]
        | some d => simp [truthy, hraw, hp, and_assoc]
  · intro consultar ids hoy fila
    cases hg : resolver_seccion_gid_por_nombre_corto ids.secciones "Hecho" with
    | none => simp [obtener_resumen_semanal, hg, truthy, mem_ordenarPor]
    | some sg =>
      by_cases hsg : sg = ""
      · subst hsg
        simp [obtener_resumen_semanal, hg, truthy, mem_ordenarPor]
      · simp [obtener_resumen_semanal, hg, truthy, hsg, mem_ordenarPor, List.mem_map,
          List.mem_filter, and_assoc]

/-- Claim C7 witness: the inclusion criterion instantiated at the concrete
completed task on the window edge. -/
theorem resumen_ventana_completadas_witness :
    completadaEnVentana (fecha 2024 3 15 - 6) (fecha 2024 3 15) tareaHecha1 = true
      ↔ ∃ raw d, tareaHecha1.completed_at = some raw ∧ parsearCompletedAt raw = some d
          ∧ fecha 2024 3 15 - 6 ≤ d ∧ d ≤ fecha 2024 3 15 :=
  resumen_ventana_completadas.2.1 (fecha 2024 3 15) tareaHecha1 rfl

/-- Claim C8: a row enters the overdue list of the weekly digest exactly for
a non-completed task of the Hoy, Semana or Backlog sections whose due date
parses to a date strictly before today; a task whose due date equals today,
is missing, or does not parse never produces an overdue row. -/
theorem resumen_vencidas_criterio :
    (∀ (hoy : Fecha) (t : TaskRecord),
        (∃ fila, entradaVencida hoy t = some fila)
          ↔ t.completed = false
              ∧ ∃ raw d, t.due_on = some raw ∧ date_fromisoformat raw = some d ∧ d < hoy)
      ∧ (∀ (consultar : String → List TaskRecord) (ids : AsanaIds) (hoy : Fecha)
            (fila : EntradaVencida),
          fila ∈ (obtener_resumen_semanal consultar ids hoy).vencidas
            ↔ ∃ nombre ∈ (["Hoy", "Semana", "Backlog"] : List String), ∃ sg,
                resolver_seccion_gid_por_nombre_corto ids.secciones nombre = some sg
                  ∧ sg ≠ ""
                  ∧ ∃ t ∈ consultar sg, entradaVencida hoy t = some fila)
      ∧ (∀ (hoy : Fecha) (t : TaskRecord), t.due_on = none → entradaVencida hoy t = none)
      ∧ (∀ (hoy : Fecha) (t : TaskRecord) (raw : String),
          t.due_on = some raw → date_fromisoformat raw = none → entradaVencida hoy t = none)
      ∧ (∀ (hoy : Fecha) (t : TaskRecord) (raw : String),
          t.due_on = some raw → date_fromisoformat raw = some hoy →
            entradaVencida hoy t = none) := by
  refine ⟨?_, ?_, ?_, ?_, ?_⟩
  · intro hoy t
    unfold entradaVencida
    cases hcomp : t.completed with
    | true => simp
    | false =>
      cases hdo : t.due_on with
      | none => simp [truthy]
      | some raw =>
        by_cases hraw : raw = ""
        · subst hraw
          have hp : date_fromisoformat "" = none := by decide
          simp [truthy, hp]
        · cases hp : date_fromisoformat raw with
          | none => simp [truthy, hraw, hp]
          | some d =>
            by_cases hd : hoy ≤ d
            · simp [truthy, hraw, hp, hd, show ¬ d < hoy from not_lt.mpr hd]
            · simp [truthy, hraw, hp, hd, show d < hoy from not_le.mp hd]
  · intro consultar ids hoy fila
    have hsec : ∀ nombre,
        (fila ∈
          if truthy (resolver_seccion_gid_por_nombre_corto ids.secciones nombre) = true then
            (consultar ((resolver_seccion_gid_por_nombre_corto ids.secciones nombre).getD
                "")).filterMap (entradaVencida hoy)
          else [])
          ↔ ∃ sg, resolver_seccion_gid_por_nombre_corto ids.secciones nombre = some sg
              ∧ sg ≠ "" ∧ ∃ t ∈ consultar sg, entradaVencida hoy t = some fila := by
      intro nombre
      cases hg : resolver_seccion_gid_por_nombre_corto ids.secciones nombre with
      | none => simp [truthy]
      | some sg =>
        by_cases hsg : sg = ""
        · subst hsg
          simp [truthy]
        · simp [truthy, hsg, List.mem_filterMap]
    simp only [obtener_resumen_semanal, mem_ordenarPor, List.mem_flatMap]
    simp only [hsec]
  · intro hoy t hdo
    simp [entradaVencida, hdo, truthy]
  · intro hoy t raw hdo hp
    by_cases hraw : raw = ""
    · subst hraw
      simp [entradaVencida, hdo, truthy]
    · simp [entradaVencida, hdo, truthy, hraw, hp]
  · intro hoy t raw hdo hp
    by_cases hraw : raw = ""
    · subst hraw
      simp [entradaVencida, hdo, truthy]
    · simp [entradaVencida, hdo, truthy, hraw, hp]

/-- Claim C8 witness: a task due exactly on the digest day produces no
overdue row. -/
theorem resumen_vencidas_criterio_witness :
    entradaVencida (fecha 2024 3 15) tareaDueHoy = none :=
  resumen_vencidas_criterio.2.2.2.2 (fecha 2024 3 15) tareaDueHoy "2024-03-15" rfl (by decide)

end Jarvis
